import Mathlib

/-!
Shallow embedding of `src/krotov/convergence.py` (the convergence-predicate
framework of the krotov package) and verification of its specification.

Modelling conventions:
* Python floats are modelled as rational numbers (`ℚ`).
* A value extracted from a `Result` is a `PyVal`: either the Python `None`
  singleton or a number.
* Fallible Python code is modelled with `Except PyError`; `PyError` records
  the exception class and its message.
* A glom extraction spec (together with the `**kwargs` forwarded to
  `glom.glom`) is modelled as an opaque function `Result → Except PyError
  PyVal`, as the module itself treats specs as black boxes.  The concrete
  default specs `('info_vals', glom.T[-1])` and `('info_vals', glom.T[-2])`
  are modelled by `glomT` below, with Python negative-index semantics.
* The `limit` argument (a float or a string representation of a float) is
  modelled by `Limit`: `str` is Python `str(limit)` as used in messages, and
  `val` is the outcome of `float(limit)` (`none` models a string on which
  `float` raises `ValueError`; parsing itself is an external primitive).
-/

namespace Krotov

/-- Python scalar values that an extraction can produce: the Python `None`
singleton, or a float (modelled as a rational number). -/
inductive PyVal where
  | pyNone : PyVal
  | pyNum : ℚ → PyVal
deriving DecidableEq

/-- Python exceptions, distinguished by class, each carrying its message.
The classes listed are exactly those relevant to `convergence.py`:
the four classes caught in `delta_below.check_convergence`, plus
`ValueError` (from `float`) and `TypeError` (from operations on `None`). -/
inductive PyError where
  | attributeError : String → PyError
  | keyError : String → PyError
  | indexError : String → PyError
  | glomError : String → PyError
  | valueError : String → PyError
  | typeError : String → PyError
deriving DecidableEq

/-- Membership in the exception tuple caught by `delta_below.check_convergence`:
`(AttributeError, KeyError, IndexError, glom.GlomError)`. -/
def catchable : PyError → Bool
  | .attributeError _ => true
  | .keyError _ => true
  | .indexError _ => true
  | .glomError _ => true
  | .valueError _ => false
  | .typeError _ => false

/-- The attributes of `krotov.result.Result` that this module reads: the
`info_vals` list, appended to once per iteration. -/
structure Result where
  info_vals : List PyVal
deriving DecidableEq

/-- A glom extraction spec as used by `glom.glom(result, spec, **kwargs)`:
evaluating it on a `Result` either returns a value or raises. -/
abbrev Spec : Type := Result → Except PyError PyVal

/-- The type of a `check_convergence` routine: it receives a `Result` and
returns `None` or a message string, or raises. -/
abbrev Pred : Type := Result → Except PyError (Option String)

/-- Python truthiness of a returned signal, as in the test
`bool(msg) is True` inside `Or`: `None` and the empty string are falsy,
a non-empty string is truthy. -/
def truthy : Option String → Bool
  | none => false
  | some s => decide (s ≠ "")

/-- Python list indexing `xs[pos]` with negative-index semantics, wrapped the
way `glom` reports a failed lookup of `glom.T[pos]`: a `glom.PathAccessError`,
which is a subclass of `glom.GlomError`. -/
def pyListIndex (xs : List PyVal) (pos : Int) : Except PyError PyVal :=
  let i : Int := if pos < 0 then (xs.length : Int) + pos else pos
  if i < 0 then
    .error (.glomError ("could not access " ++ toString pos))
  else
    match xs.get? i.toNat with
    | some v => .ok v
    | none => .error (.glomError ("could not access " ++ toString pos))

/-- The extraction spec `('info_vals', glom.T[pos])`. -/
def glomT (pos : Int) : Spec := fun result => pyListIndex result.info_vals pos

/-- The `limit` argument of `value_below` and `delta_below`: `str` is the
Python `str(limit)` used when formatting messages, `val` is the outcome of
`float(limit)` (`none` models an unparseable string). -/
structure Limit where
  str : String
  val : Option ℚ
deriving DecidableEq

/-- Python `float(limit)`: returns the parsed value, or raises `ValueError`
when `limit` is a string that does not parse as a float. -/
def pyFloat (limit : Limit) : Except PyError ℚ :=
  match limit.val with
  | some l => .ok l
  | none =>
    .error (.valueError ("could not convert string to float: " ++ limit.str))

/-- Python comparison `v < x` of an extracted value against a float:
comparing `None` with a float raises `TypeError`. -/
def pyLt (v : PyVal) (x : ℚ) : Except PyError Bool :=
  match v with
  | .pyNum a => .ok (decide (a < x))
  | .pyNone => .error (.typeError "not supported between instances of NoneType and float")

/-- Python subtraction `v1 - v0` of extracted values: defined on numbers,
raises `TypeError` when either operand is `None`. -/
def pySub : PyVal → PyVal → Except PyError PyVal
  | .pyNum a, .pyNum b => .ok (.pyNum (a - b))
  | _, _ => .error (.typeError "unsupported operand types for -")

/-- Python `abs` on an extracted value: the magnitude of a number; `abs(None)`
raises `TypeError`. -/
def pyAbs : PyVal → Except PyError PyVal
  | .pyNum a => .ok (.pyNum (if a < 0 then -a else a))
  | .pyNone => .error (.typeError "bad operand type for abs")

/-- The test `v is None` on an extracted value. -/
def PyVal.isNone : PyVal → Bool
  | .pyNone => true
  | .pyNum _ => false

/-- The function `Or(*funcs)`: returns the closure `check_convergence(result)`
that evaluates the predicates in order and returns the first result whose
truth value is `True`, or `None` if none is truthy.  An exception raised by a
predicate propagates. -/
def Or : List Pred → Pred
  | [] => fun _ => .ok none
  | func :: rest => fun result =>
    match func result with
    | .error e => .error e
    | .ok msg => if truthy msg then .ok msg else Or rest result

/-- The function `value_below(limit, spec, name, **kwargs)`: returns the
closure `check_convergence(result)` that extracts `v` via `spec` (errors
propagate uncaught), then returns the message `"{name} < {limit}"` when
`v < float(limit)` and `None` otherwise.  The source defaults `name` to
`str(spec)`; here `name` is an explicit argument, and `**kwargs` is absorbed
into the `Spec` function. -/
def value_below (limit : Limit) (spec : Spec) (name : String) : Pred :=
  fun result =>
    match spec result with
    | .error e => .error e
    | .ok v =>
      match pyFloat limit with
      | .error e => .error e
      | .ok l =>
        match pyLt v l with
        | .error e => .error e
        | .ok b =>
          if b then .ok (some (name ++ " < " ++ limit.str)) else .ok none

/-- One `try/except` block of `delta_below.check_convergence`: on success the
extracted value is paired with no captured error; a catchable extraction
error is captured and the value is left at `None`; any other error
propagates immediately. -/
def tryExtract (spec : Spec) (result : Result) :
    Except PyError (PyVal × Option PyError) :=
  match spec result with
  | .ok v => .ok (v, none)
  | .error exc => if catchable exc then .ok (.pyNone, some exc) else .error exc

/-- The function
`delta_below(limit, spec1, spec0, absolute_value, name, **kwargs)`: returns
the closure `check_convergence(result)` that extracts `v1` via `spec1` and
`v0` via `spec0` (each in a `try/except` capturing the error into
`delayed_exc`, where the second capture overwrites the first), returns `None`
when exactly one of `v1`, `v0` is `None` (the `xor` test), re-raises
`delayed_exc` when both are `None` and an error was captured, and otherwise
computes `delta = v1 - v0` (made absolute when `absolute_value` is true) and
returns `"{name} < {limit}"` when `delta < float(limit)`, else `None`. -/
def delta_below (limit : Limit) (spec1 spec0 : Spec) (absolute_value : Bool)
    (name : String) : Pred :=
  fun result =>
    match tryExtract spec1 result with
    | .error e => .error e
    | .ok (v1, exc1) =>
      match tryExtract spec0 result with
      | .error e => .error e
      | .ok (v0, exc0) =>
        let delayed_exc : Option PyError :=
          match exc0 with
          | some e => some e
          | none => exc1
        if Bool.xor v1.isNone v0.isNone then
          .ok none
        else
          match delayed_exc with
          | some exc => .error exc
          | none =>
            match pySub v1 v0 with
            | .error e => .error e
            | .ok d =>
              match (if absolute_value then pyAbs d else .ok d) with
              | .error e => .error e
              | .ok delta =>
                match pyFloat limit with
                | .error e => .error e
                | .ok l =>
                  match pyLt delta l with
                  | .error e => .error e
                  | .ok b =>
                    if b then .ok (some (name ++ " < " ++ limit.str))
                    else .ok none

/-- The module-level constant `_monotonic_convergence`:
`delta_below(limit=0, spec1=('info_vals', T[-2]), spec0=('info_vals', T[-1]),
absolute_value=False, name="Loss of monotonic convergence; error decrease")`.
Python `str(0)` is `"0"`. -/
def monotonic_convergence : Pred :=
  delta_below ⟨"0", some 0⟩ (glomT (-2)) (glomT (-1)) false
    "Loss of monotonic convergence; error decrease"

/-- The module-level constant `_monotonic_fidelity`:
`delta_below(limit=0, spec1=('info_vals', T[-1]), spec0=('info_vals', T[-2]),
absolute_value=False, name="Loss of monotonic convergence; fidelity increase")`. -/
def monotonic_fidelity : Pred :=
  delta_below ⟨"0", some 0⟩ (glomT (-1)) (glomT (-2)) false
    "Loss of monotonic convergence; fidelity increase"

/-- The function `check_monotonic_error(result)`: a documentation wrapper that
delegates to `_monotonic_convergence`. -/
def check_monotonic_error : Pred := fun result => monotonic_convergence result

/-- The function `check_monotonic_fidelity(result)`: a wrapper that delegates
to `_monotonic_fidelity`. -/
def check_monotonic_fidelity : Pred := fun result => monotonic_fidelity result

/-- A concrete empty Result, and concrete specs, predicates and limits used
in the closed instantiations below. -/
def exampleResult : Result := ⟨[]⟩

/-- A spec that always raises an IndexError. -/
def failSpec1 : Spec := fun _ => .error (.indexError "list index out of range")

/-- A spec that always raises a KeyError. -/
def failSpec0 : Spec := fun _ => .error (.keyError "info_vals")

/-- A spec that always resolves to the Python value None. -/
def noneSpec : Spec := fun _ => .ok PyVal.pyNone

/-- A spec that always resolves to the number 1. -/
def oneSpec : Spec := fun _ => .ok (.pyNum 1)

/-- A numeric limit 2. -/
def twoLimit : Limit := ⟨"2", some 2⟩

/-- A limit whose string does not parse as a float. -/
def badLimit : Limit := ⟨"not-a-float", none⟩

/-- A predicate that always fires with a fixed message. -/
def firesPred : Pred := fun _ => .ok (some "A fired")

/-- A predicate that raises if it is ever evaluated. -/
def raisingPred : Pred := fun _ => .error (.typeError "must not be evaluated")

end Krotov

namespace Krotov

/-- Claim C10: Or called with zero predicates returns a predicate that
returns the null signal for every Result. -/
theorem Or_empty_returns_none (result : Result) : Or [] result = .ok none := rfl

/-- Claim C3: a predicate built by Or evaluates the predicates in
construction order, returns the result of the first truthy predicate
independently of every later predicate (short-circuit), returns the null
signal when all results are falsy, and returns the null signal only in
that case. -/
theorem Or_short_circuit (result : Result) :
    (∀ (funcs1 : List Pred) (p : Pred) (funcs2 : List Pred) (m : Option String),
      (∀ f ∈ funcs1, ∃ m0, f result = .ok m0 ∧ truthy m0 = false) →
      p result = .ok m → truthy m = true →
      Or (funcs1 ++ p :: funcs2) result = .ok m)
    ∧ (∀ funcs : List Pred,
      (∀ f ∈ funcs, ∃ m0, f result = .ok m0 ∧ truthy m0 = false) →
      Or funcs result = .ok none)
    ∧ (∀ funcs : List Pred, Or funcs result = .ok none →
      ∀ f ∈ funcs, ∃ m0, f result = .ok m0 ∧ truthy m0 = false) := by
  refine ⟨?first, ?allFalsy, ?onlyIf⟩
  case first =>
    intro funcs1 p funcs2 m hfalsy hp htruthy
    induction funcs1 with
    | nil => simp [Or, hp, htruthy]
    | cons f rest ih =>
      obtain ⟨m0, hf, hm0⟩ := hfalsy f (List.mem_cons_self f rest)
      have hrest : ∀ g ∈ rest, ∃ m0, g result = .ok m0 ∧ truthy m0 = false :=
        fun g hg => hfalsy g (List.mem_cons_of_mem f hg)
      simp [Or, hf, hm0, ih hrest]
  case allFalsy =>
    intro funcs hfalsy
    induction funcs with
    | nil => rfl
    | cons f rest ih =>
      obtain ⟨m0, hf, hm0⟩ := hfalsy f (List.mem_cons_self f rest)
      have hrest : ∀ g ∈ rest, ∃ m0, g result = .ok m0 ∧ truthy m0 = false :=
        fun g hg => hfalsy g (List.mem_cons_of_mem f hg)
      simp [Or, hf, hm0, ih hrest]
  case onlyIf =>
    intro funcs hnone f hf
    induction funcs with
    | nil => cases hf
    | cons g rest ih =>
      revert hnone
      unfold Or
      cases hg : g result with
      | error e => intro h; cases h
      | ok m0 =>
        cases htm : truthy m0 with
        | true =>
          intro h
          simp [htm] at h
          subst h
          simp [truthy] at htm
        | false =>
          intro h
          simp [htm] at h
          rcases List.mem_cons.mp hf with hfg | hfr
          · subst hfg; exact ⟨m0, hg, htm⟩
          · exact ih h hfr

/-- Witness for C3: with a first predicate that fires and a second that would
raise if evaluated, Or returns the message of the first. -/
theorem Or_short_circuit_witness :
    Or [firesPred, raisingPred] exampleResult = .ok (some "A fired") :=
  (Or_short_circuit exampleResult).1 [] firesPred [raisingPred] (some "A fired")
    (fun f hf => absurd hf (List.not_mem_nil f)) rfl rfl

/-- Claim C4: for a Result on which the spec extracts a numeric value, the
predicate built by value_below returns the message exactly when the value is
strictly below the parsed limit, and the null signal otherwise. -/
theorem value_below_threshold (limit : Limit) (spec : Spec) (name : String)
    (result : Result) (v l : ℚ)
    (hv : spec result = .ok (PyVal.pyNum v)) (hl : limit.val = some l) :
    value_below limit spec name result
      = .ok (if v < l then some (name ++ " < " ++ limit.str) else none) := by
  unfold value_below pyFloat pyLt
  rw [hv, hl]
  by_cases h : v < l <;> simp [h]

/-- Witness for C4: extracted value 1 against limit 2 fires with the message. -/
theorem value_below_threshold_witness :
    value_below twoLimit oneSpec "J_T" exampleResult = .ok (some "J_T < 2") := by
  have h := value_below_threshold twoLimit oneSpec "J_T" exampleResult 1 2 rfl rfl
  rwa [if_pos one_lt_two] at h

/-- Claim C5: when both extractions succeed with numeric values, the predicate
built by delta_below compares delta = v1 - v0 (in absolute value when
absolute_value is true) strictly against the parsed limit and returns the
message exactly when delta is below it. -/
theorem delta_below_comparison (limit : Limit) (spec1 spec0 : Spec)
    (absolute_value : Bool) (name : String) (result : Result) (a b l : ℚ)
    (h1 : spec1 result = .ok (PyVal.pyNum a))
    (h0 : spec0 result = .ok (PyVal.pyNum b)) (hl : limit.val = some l) :
    delta_below limit spec1 spec0 absolute_value name result
      = .ok (if (if absolute_value then |a - b| else a - b) < l
          then some (name ++ " < " ++ limit.str) else none) := by
  unfold delta_below tryExtract pySub pyAbs pyFloat pyLt
  rw [h1, h0, hl]
  cases absolute_value with
  | false =>
    by_cases h : a - b < l <;> simp [PyVal.isNone, h]
  | true =>
    have habs2 : (if a < b then b - a else a - b) = |a - b| := by
      by_cases hab : a < b
      · rw [if_pos hab, abs_of_neg (sub_neg.mpr hab), neg_sub]
      · rw [if_neg hab, abs_of_nonneg (sub_nonneg.mpr (le_of_not_lt hab))]
    by_cases h : |a - b| < l <;>
      simp [PyVal.isNone, habs2, h]

/-- Witness for C5: values 1 and 1 give delta 0, which is below limit 2, so
the message is returned. -/
theorem delta_below_comparison_witness :
    delta_below twoLimit oneSpec oneSpec true "dJ" exampleResult
      = .ok (some "dJ < 2") := by
  have h := delta_below_comparison twoLimit oneSpec oneSpec true "dJ"
    exampleResult 1 1 2 rfl rfl rfl
  rwa [if_pos rfl, sub_self, abs_zero, if_pos zero_lt_two] at h

/-- Claim C6: when both extractions fail with catchable errors, delta_below
re-raises the error captured last, namely the one from the spec0 extraction,
unmodified (same class and message, as the same PyError value). -/
theorem delta_below_both_fail_raises_last (limit : Limit) (spec1 spec0 : Spec)
    (absolute_value : Bool) (name : String) (result : Result) (e1 e0 : PyError)
    (h1 : spec1 result = .error e1) (hc1 : catchable e1 = true)
    (h0 : spec0 result = .error e0) (hc0 : catchable e0 = true) :
    delta_below limit spec1 spec0 absolute_value name result = .error e0 := by
  unfold delta_below tryExtract
  rw [h1, h0]
  simp [hc1, hc0, PyVal.isNone]

/-- Witness for C6: spec1 fails with an IndexError, spec0 with a KeyError;
the predicate raises the KeyError, i.e. the error captured last. -/
theorem delta_below_both_fail_raises_last_witness :
    delta_below twoLimit failSpec1 failSpec0 true "dJ" exampleResult
      = .error (.keyError "info_vals") :=
  delta_below_both_fail_raises_last twoLimit failSpec1 failSpec0 true "dJ"
    exampleResult (.indexError "list index out of range") (.keyError "info_vals")
    rfl rfl rfl rfl

/-- Counterexample to claim C1 as stated: here exactly one of the two
extractions fails with a catchable extraction error (spec1 raises an
IndexError, spec0 succeeds), yet the predicate does not return the null
signal: it raises, because the successful extraction returned the value None,
which the xor test cannot tell apart from a captured failure. -/
theorem delta_below_one_failure_raises_on_none :
    failSpec1 exampleResult
        = .error (PyError.indexError "list index out of range")
    ∧ catchable (PyError.indexError "list index out of range") = true
    ∧ noneSpec exampleResult = .ok PyVal.pyNone
    ∧ delta_below twoLimit failSpec1 noneSpec true "dJ" exampleResult
        = .error (PyError.indexError "list index out of range")
    ∧ delta_below twoLimit failSpec1 noneSpec true "dJ" exampleResult
        ≠ .ok none := by
  refine ⟨rfl, rfl, rfl, rfl, ?_⟩
  intro h
  exact Except.noConfusion h

/-- Claim C1 (amended): if exactly one of the two extractions fails with a
catchable extraction error and the other one succeeds with a value other
than None, the predicate returns the null signal without raising; if both
extractions fail with catchable errors, it raises the captured extraction
error (the one captured last). -/
theorem delta_below_missing_data (limit : Limit) (spec1 spec0 : Spec)
    (absolute_value : Bool) (name : String) (result : Result) :
    (∀ (e : PyError) (v : PyVal), spec1 result = .error e → catchable e = true →
      spec0 result = .ok v → v ≠ PyVal.pyNone →
      delta_below limit spec1 spec0 absolute_value name result = .ok none)
    ∧ (∀ (e : PyError) (v : PyVal), spec0 result = .error e → catchable e = true →
      spec1 result = .ok v → v ≠ PyVal.pyNone →
      delta_below limit spec1 spec0 absolute_value name result = .ok none)
    ∧ (∀ (e1 e0 : PyError), spec1 result = .error e1 → catchable e1 = true →
      spec0 result = .error e0 → catchable e0 = true →
      delta_below limit spec1 spec0 absolute_value name result
        = .error e0) := by
  refine ⟨?fail1, ?fail0, ?both⟩
  case fail1 =>
    intro e v h1 hc h0 hv
    unfold delta_below tryExtract
    rw [h1, h0]
    cases v with
    | pyNone => exact absurd rfl hv
    | pyNum a => simp [hc, PyVal.isNone]
  case fail0 =>
    intro e v h0 hc h1 hv
    unfold delta_below tryExtract
    rw [h1, h0]
    cases v with
    | pyNone => exact absurd rfl hv
    | pyNum a => simp [hc, PyVal.isNone]
  case both =>
    intro e1 e0 h1 hc1 h0 hc0
    unfold delta_below tryExtract
    rw [h1, h0]
    simp [hc1, hc0, PyVal.isNone]

/-- Witness for the amended C1: spec1 fails with an IndexError, spec0 yields
the number 1, and the predicate returns the null signal. -/
theorem delta_below_missing_data_witness :
    delta_below twoLimit failSpec1 oneSpec true "dJ" exampleResult
      = .ok none :=
  (delta_below_missing_data twoLimit failSpec1 oneSpec true "dJ"
      exampleResult).1 (.indexError "list index out of range") (.pyNum 1)
    rfl rfl rfl (fun h => PyVal.noConfusion h)

/-- Claim C8: a successful extraction of the value None is indistinguishable
from a failed extraction inside delta_below: when exactly one spec resolves
to None and the other to a number, the predicate silently returns the null
signal as if data were missing, and when both specs resolve to None, no error
was captured, the missing-data branch does not fire, and the subtraction
None - None raises a TypeError. -/
theorem delta_below_none_value_conflation (limit : Limit) (spec1 spec0 : Spec)
    (absolute_value : Bool) (name : String) (result : Result) (q : ℚ) :
    (spec1 result = .ok PyVal.pyNone → spec0 result = .ok (PyVal.pyNum q) →
      delta_below limit spec1 spec0 absolute_value name result = .ok none)
    ∧ (spec1 result = .ok (PyVal.pyNum q) → spec0 result = .ok PyVal.pyNone →
      delta_below limit spec1 spec0 absolute_value name result = .ok none)
    ∧ (spec1 result = .ok PyVal.pyNone → spec0 result = .ok PyVal.pyNone →
      delta_below limit spec1 spec0 absolute_value name result
        = .error (.typeError "unsupported operand types for -")) := by
  refine ⟨?left, ?right, ?both⟩
  case left =>
    intro h1 h0
    unfold delta_below tryExtract
    rw [h1, h0]
    simp [PyVal.isNone]
  case right =>
    intro h1 h0
    unfold delta_below tryExtract
    rw [h1, h0]
    simp [PyVal.isNone]
  case both =>
    intro h1 h0
    unfold delta_below tryExtract pySub
    rw [h1, h0]
    simp [PyVal.isNone]

/-- Witness for C8: both specs successfully resolve to None and the predicate
raises a TypeError from the subtraction. -/
theorem delta_below_none_value_conflation_witness :
    delta_below twoLimit noneSpec noneSpec true "dJ" exampleResult
      = .error (.typeError "unsupported operand types for -") :=
  (delta_below_none_value_conflation twoLimit noneSpec noneSpec true "dJ"
      exampleResult 0).2.2 rfl rfl

/-- Claim C9: the limit is converted with float(limit) on every call of the
returned predicate, not at construction: with a limit whose string does not
parse, construction still yields a total predicate, and the ValueError
surfaces only on a call whose evaluation reaches the comparison against the
limit — an extraction error still propagates as itself, and the missing-data
branch of delta_below still returns the null signal without any ValueError. -/
theorem limit_parsed_per_call (limit : Limit) (hlim : limit.val = none) :
    (∀ (spec : Spec) (name : String) (result : Result) (v : PyVal),
      spec result = .ok v →
      value_below limit spec name result
        = .error (.valueError
            ("could not convert string to float: " ++ limit.str)))
    ∧ (∀ (spec : Spec) (name : String) (result : Result) (e : PyError),
      spec result = .error e →
      value_below limit spec name result = .error e)
    ∧ (∀ (spec1 spec0 : Spec) (absolute_value : Bool) (name : String)
        (result : Result) (e : PyError) (q : ℚ),
      spec1 result = .error e → catchable e = true →
      spec0 result = .ok (PyVal.pyNum q) →
      delta_below limit spec1 spec0 absolute_value name result = .ok none)
    ∧ (∀ (spec1 spec0 : Spec) (absolute_value : Bool) (name : String)
        (result : Result) (q1 q0 : ℚ),
      spec1 result = .ok (PyVal.pyNum q1) → spec0 result = .ok (PyVal.pyNum q0) →
      delta_below limit spec1 spec0 absolute_value name result
        = .error (.valueError
            ("could not convert string to float: " ++ limit.str))) := by
  refine ⟨?vbOk, ?vbErr, ?dbMissing, ?dbOk⟩
  case vbOk =>
    intro spec name result v hv
    unfold value_below pyFloat
    rw [hv, hlim]
  case vbErr =>
    intro spec name result e he
    unfold value_below
    rw [he]
  case dbMissing =>
    intro spec1 spec0 absolute_value name result e q h1 hc h0
    unfold delta_below tryExtract
    rw [h1, h0]
    simp [hc, PyVal.isNone]
  case dbOk =>
    intro spec1 spec0 absolute_value name result q1 q0 h1 h0
    unfold delta_below tryExtract pySub pyAbs pyFloat
    rw [h1, h0, hlim]
    cases absolute_value <;> simp [PyVal.isNone]

/-- Witness for C9: with an unparseable limit string, a call of the
value_below predicate on a Result whose extraction succeeds raises the
ValueError, while a call of the delta_below predicate that stops in the
missing-data branch returns the null signal without raising it. -/
theorem limit_parsed_per_call_witness :
    value_below badLimit oneSpec "J_T" exampleResult
      = .error (.valueError "could not convert string to float: not-a-float")
    ∧ delta_below badLimit failSpec1 oneSpec true "dJ" exampleResult
      = .ok none :=
  ⟨(limit_parsed_per_call badLimit rfl).1 oneSpec "J_T" exampleResult
      (.pyNum 1) rfl,
    (limit_parsed_per_call badLimit rfl).2.2.1 failSpec1 oneSpec true "dJ"
      exampleResult (.indexError "list index out of range") 1 rfl rfl rfl⟩

/-- Claim C2 at the boundary: when the last entry of info_vals equals the
previous one, check_monotonic_error returns the null signal instead of firing
(the code fires only when the last entry is strictly greater than the
previous one, as the second conjunct shows), contradicting its docstring and
the claim. -/
theorem check_monotonic_error_boundary :
    check_monotonic_error ⟨[PyVal.pyNum 1, PyVal.pyNum 1]⟩ = .ok none
    ∧ check_monotonic_error ⟨[PyVal.pyNum 1, PyVal.pyNum 2]⟩
        = .ok (some "Loss of monotonic convergence; error decrease < 0")
    ∧ check_monotonic_error ⟨[PyVal.pyNum 2, PyVal.pyNum 1]⟩ = .ok none := by
  refine ⟨?eq, ?inc, ?dec⟩
  case eq =>
    norm_num [check_monotonic_error, monotonic_convergence, delta_below,
      tryExtract, glomT, pyListIndex, pySub, pyAbs, pyFloat, pyLt,
      PyVal.isNone]
  case inc =>
    norm_num [check_monotonic_error, monotonic_convergence, delta_below,
      tryExtract, glomT, pyListIndex, pySub, pyAbs, pyFloat, pyLt,
      PyVal.isNone]
    rfl
  case dec =>
    norm_num [check_monotonic_error, monotonic_convergence, delta_below,
      tryExtract, glomT, pyListIndex, pySub, pyAbs, pyFloat, pyLt,
      PyVal.isNone]

/-- Claim C7 at the boundary: when the last entry of info_vals equals the
previous one, check_monotonic_fidelity returns the null signal instead of
firing (the code fires only when the last entry is strictly smaller than the
previous one, as the second conjunct shows), contradicting the claim. -/
theorem check_monotonic_fidelity_boundary :
    check_monotonic_fidelity ⟨[PyVal.pyNum 1, PyVal.pyNum 1]⟩ = .ok none
    ∧ check_monotonic_fidelity ⟨[PyVal.pyNum 2, PyVal.pyNum 1]⟩
        = .ok (some "Loss of monotonic convergence; fidelity increase < 0")
    ∧ check_monotonic_fidelity ⟨[PyVal.pyNum 1, PyVal.pyNum 2]⟩ = .ok none := by
  refine ⟨?eq, ?dec, ?inc⟩
  case eq =>
    norm_num [check_monotonic_fidelity, monotonic_fidelity, delta_below,
      tryExtract, glomT, pyListIndex, pySub, pyAbs, pyFloat, pyLt,
      PyVal.isNone]
  case dec =>
    norm_num [check_monotonic_fidelity, monotonic_fidelity, delta_below,
      tryExtract, glomT, pyListIndex, pySub, pyAbs, pyFloat, pyLt,
      PyVal.isNone]
    rfl
  case inc =>
    norm_num [check_monotonic_fidelity, monotonic_fidelity, delta_below,
      tryExtract, glomT, pyListIndex, pySub, pyAbs, pyFloat, pyLt,
      PyVal.isNone]

end Krotov
